import Mathlib

/-!
Verification of the message gateway (`MessageService` in the source) of the
gpt_agent repository.  The gateway decides whether, when, and as what kind of
notification an internal event becomes visible to the user, and classifies
raw failure values into symbolic error keys.

The embedding translates the source class into explicit state passing: each
method returns the (possibly updated) service state together with the list of
messages handed to the injected rendering sink during the call (empty or a
singleton, since the sink is called at most once per method).
-/

namespace GptAgent

/-- Modelled from the spec: the message kinds of `agentTypes`
(`MESSAGE_TYPE_GOAL`, `MESSAGE_TYPE_SYSTEM`, `MESSAGE_TYPE_THINKING`), a
closed set of tags; the `agentTypes` module itself is not under `src/`. -/
inductive MessageType where
  | goal
  | system
  | thinking
deriving DecidableEq, Repr

/-- Modelled from the spec: a `Message` is a tagged value with a kind from
the closed set and a free-form text value (the `Message` type of
`agentTypes` is not under `src/`). -/
structure Message where
  type : MessageType
  value : String
deriving DecidableEq, Repr

/-- Modelled from the spec: the `Analysis` descriptor from `./analysis`
(not under `src/`): `\x7b action: one of \x7bsearch, wikipedia, image, code,
other/unspecified\x7d, arg: optional string \x7d`.  `none` stands for an
absent field (`undefined` in the source language). -/
structure Analysis where
  action : Option String
  arg : Option String
deriving DecidableEq, Repr

/-- Modelled from the spec: the raw failure value handed to
`sendErrorMessage` is of unknown shape; following the spec design note it is
embedded as a tagged union: a transport-layer (axios) error whose
`response?.status` chain yields an optional numeric status, a plain string,
or anything else. -/
inductive RawFailure where
  | axiosError (status : Option Nat)
  | str (s : String)
  | other
deriving DecidableEq, Repr

/-- The gateway state: the `isRunning` flag plus the injected rendering
sink.  The sink callback is opaque to the gateway, so it is represented by
an abstract value of type `σ`; actual delivery is recorded in the message
lists the operations return. -/
structure MessageService (σ : Type) where
  isRunning : Bool
  renderMessage : σ
deriving DecidableEq, Repr

/-- `constructor(renderMessage)`: stores the sink and initializes
`isRunning` to `false`. -/
def MessageService.create {σ : Type} (sink : σ) : MessageService σ :=
  { isRunning := false, renderMessage := sink }

/-- `setIsRunning(isRunning)`: unconditionally replaces the stored flag. -/
def MessageService.setIsRunning {σ : Type} (svc : MessageService σ) (b : Bool) :
    MessageService σ :=
  { svc with isRunning := b }

/-- `sendMessage(message)`: calls the sink with the message exactly when
`isRunning` is true; mutates nothing. -/
def MessageService.sendMessage {σ : Type} (svc : MessageService σ) (m : Message) :
    MessageService σ × List Message :=
  (svc, if svc.isRunning then [m] else [])

/-- `sendGoalMessage(goal)`. -/
def MessageService.sendGoalMessage {σ : Type} (svc : MessageService σ) (goal : String) :
    MessageService σ × List Message :=
  svc.sendMessage { type := MessageType.goal, value := goal }

/-- `sendThinkingMessage()`. -/
def MessageService.sendThinkingMessage {σ : Type} (svc : MessageService σ) :
    MessageService σ × List Message :=
  svc.sendMessage { type := MessageType.thinking, value := "" }

/-- JS template-literal rendering of an optional string: an absent value
interpolates as the text `undefined`. -/
def interpArg : Option String → String
  | some s => s
  | none => "undefined"

/-- The message text built by `sendAnalysisMessage`: a default sentence,
then four independent (non-exclusive) `if` statements reassigning it, in
source order. -/
def analysisText (analysis : Analysis) : String :=
  let m0 := "⏰ Generating response..."
  let m1 := if analysis.action = some "search" then
      "🔍 Searching the web for \"" ++ interpArg analysis.arg ++ "\"..." else m0
  let m2 := if analysis.action = some "wikipedia" then
      "🌐 Searching Wikipedia for \"" ++ interpArg analysis.arg ++ "\"..." else m1
  let m3 := if analysis.action = some "image" then
      "🎨 Generating an image with prompt: \"" ++ interpArg analysis.arg ++ "\"..." else m2
  if analysis.action = some "code" then "💻 Writing code..." else m3

/-- `sendAnalysisMessage(analysis)`. -/
def MessageService.sendAnalysisMessage {σ : Type} (svc : MessageService σ)
    (analysis : Analysis) : MessageService σ × List Message :=
  svc.sendMessage { type := MessageType.system, value := analysisText analysis }

/-- The classification step of `sendErrorMessage`: default key
`ERROR_RETRIEVE_INITIAL_TASKS`; for an axios error, first an `if` on status
429 assigning `ERROR_API_KEY_QUOTA`, then an independent `if`/`else` on
status 404 — whose `else` arm overwrites the key with
`ERROR_ACCESSING_OPENAI_API_KEY` for any non-404 status, 429 included; a
plain string is used verbatim as the key; anything else keeps the
default. -/
def classifyError (e : RawFailure) : String :=
  let m0 := "ERROR_RETRIEVE_INITIAL_TASKS"
  match e with
  | RawFailure.axiosError status =>
      let m1 := if status = some 429 then "ERROR_API_KEY_QUOTA" else m0
      if status = some 404 then "ERROR_OPENAI_API_KEY_NO_GPT4"
      else
        let _ := m1
        "ERROR_ACCESSING_OPENAI_API_KEY"
  | RawFailure.str s => s
  | RawFailure.other => m0

/-- `sendErrorMessage(e)`: classify, resolve through the external `translate`
collaborator (modelled as the parameter `tr`, always called with the
`errors` namespace), and deliver as a system message. -/
def MessageService.sendErrorMessage {σ : Type} (tr : String → String → String)
    (svc : MessageService σ) (e : RawFailure) : MessageService σ × List Message :=
  svc.sendMessage { type := MessageType.system, value := tr (classifyError e) "errors" }

/-- A gateway-facing event of the owning task loop: a `setIsRunning` toggle
or a `sendMessage` publish attempt. -/
inductive Event where
  | setRunning (b : Bool)
  | publish (m : Message)
deriving DecidableEq, Repr

/-- Run a sequence of events through the gateway, collecting the messages
delivered to the sink in order. -/
def runEvents {σ : Type} (svc : MessageService σ) : List Event → MessageService σ × List Message
  | [] => (svc, [])
  | Event.setRunning b :: es => runEvents (svc.setIsRunning b) es
  | Event.publish m :: es =>
      ((runEvents (svc.sendMessage m).1 es).1,
        (svc.sendMessage m).2 ++ (runEvents (svc.sendMessage m).1 es).2)

/-- The spec-side prediction for the gating property: the sink receives
exactly the published notifications for which the stored state was true at
the moment of the publish call, in call order, with no buffering. -/
def specDelivered (running : Bool) : List Event → List Message
  | [] => []
  | Event.setRunning b :: es => specDelivered b es
  | Event.publish m :: es => (if running then [m] else []) ++ specDelivered running es

/-- C1: classifier branch table: status 404 yields the model-unavailable
key; status 429 and every other non-404 status yield the generic access
key (the quota branch is dead); a plain string is used verbatim; any other
shape keeps the default initial-retrieval key. -/
theorem classify_branch_table :
    classifyError (RawFailure.axiosError (some 404)) = "ERROR_OPENAI_API_KEY_NO_GPT4" ∧
    classifyError (RawFailure.axiosError (some 429)) = "ERROR_ACCESSING_OPENAI_API_KEY" ∧
    classifyError (RawFailure.axiosError (some 429)) ≠ "ERROR_API_KEY_QUOTA" ∧
    (∀ n : Nat, n ≠ 404 →
      classifyError (RawFailure.axiosError (some n)) = "ERROR_ACCESSING_OPENAI_API_KEY") ∧
    (∀ s : String, classifyError (RawFailure.str s) = s) ∧
    classifyError RawFailure.other = "ERROR_RETRIEVE_INITIAL_TASKS" := by
  refine ⟨rfl, rfl, by decide, ?_, fun s => rfl, rfl⟩
  intro n hn
  simp [classifyError, hn]

/-- C1 witness: the universally quantified arm evaluated at status 500 and
at the string failure `boom`. -/
theorem classify_branch_table_witness :
    ((500 : Nat) ≠ 404 ∧
      classifyError (RawFailure.axiosError (some 500)) = "ERROR_ACCESSING_OPENAI_API_KEY") ∧
    classifyError (RawFailure.str "boom") = "boom" :=
  ⟨⟨by decide, classify_branch_table.2.2.2.1 500 (by decide)⟩,
    classify_branch_table.2.2.2.2.1 "boom"⟩

/-- C2: gating: for every starting state and every sequence of publish
calls interleaved with setRunning toggles, the sink receives exactly the
notifications for which the stored flag was true at the moment of the
publish call, in call order; a publish while the flag is false delivers
nothing, with no buffering or replay. -/
theorem gating_trace {σ : Type} (svc : MessageService σ) (es : List Event) :
    (runEvents svc es).2 = specDelivered svc.isRunning es := by
  induction es generalizing svc with
  | nil => rfl
  | cons e es ih =>
    cases e with
    | setRunning b =>
      simp [runEvents, specDelivered, ih, MessageService.setIsRunning]
    | publish m =>
      simp [runEvents, specDelivered, ih, MessageService.sendMessage]

/-- C3: the action-update message text: a web-search sentence embedding the
arg for `search`; an encyclopedia sentence embedding the arg for
`wikipedia`; an image-generation sentence embedding the arg for `image`; a
fixed writing-code sentence ignoring the arg for `code`; the generic
generating-a-response sentence for any other or missing action; and the
resulting notification is of system kind, delivered exactly when the
gateway is running. -/
theorem analysis_update_coverage {σ : Type} (svc : MessageService σ) (analysis : Analysis) :
    (analysis.action = some "search" →
      analysisText analysis = "🔍 Searching the web for \"" ++ interpArg analysis.arg ++ "\"...") ∧
    (analysis.action = some "wikipedia" →
      analysisText analysis = "🌐 Searching Wikipedia for \"" ++ interpArg analysis.arg ++ "\"...") ∧
    (analysis.action = some "image" →
      analysisText analysis
        = "🎨 Generating an image with prompt: \"" ++ interpArg analysis.arg ++ "\"...") ∧
    (analysis.action = some "code" → analysisText analysis = "💻 Writing code...") ∧
    (analysis.action ≠ some "search" → analysis.action ≠ some "wikipedia" →
      analysis.action ≠ some "image" → analysis.action ≠ some "code" →
      analysisText analysis = "⏰ Generating response...") ∧
    (svc.sendAnalysisMessage analysis).2
      = if svc.isRunning then [⟨MessageType.system, analysisText analysis⟩] else [] := by
  refine ⟨?_, ?_, ?_, ?_, ?_, rfl⟩
  · intro h; simp [analysisText, h]
  · intro h; simp [analysisText, h]
  · intro h; simp [analysisText, h]
  · intro h; simp [analysisText, h]
  · intro h1 h2 h3 h4; simp [analysisText, h1, h2, h3, h4]

/-- C3 witness: the branches evaluated on the concrete inputs of the spec
table: search for cats, wikipedia for Rome, an image of a dog, code, and an
unrecognized action. -/
theorem analysis_update_coverage_witness :
    analysisText ⟨some "search", some "cats"⟩
      = "🔍 Searching the web for \"" ++ interpArg (some "cats") ++ "\"..." ∧
    analysisText ⟨some "wikipedia", some "Rome"⟩
      = "🌐 Searching Wikipedia for \"" ++ interpArg (some "Rome") ++ "\"..." ∧
    analysisText ⟨some "image", some "a dog"⟩
      = "🎨 Generating an image with prompt: \"" ++ interpArg (some "a dog") ++ "\"..." ∧
    analysisText ⟨some "code", some "x"⟩ = "💻 Writing code..." ∧
    analysisText ⟨some "dance", none⟩ = "⏰ Generating response..." :=
  ⟨(analysis_update_coverage (MessageService.create ()) ⟨some "search", some "cats"⟩).1 rfl,
    (analysis_update_coverage (MessageService.create ()) ⟨some "wikipedia", some "Rome"⟩).2.1 rfl,
    (analysis_update_coverage (MessageService.create ()) ⟨some "image", some "a dog"⟩).2.2.1 rfl,
    (analysis_update_coverage (MessageService.create ()) ⟨some "code", some "x"⟩).2.2.2.1 rfl,
    (analysis_update_coverage (MessageService.create ()) ⟨some "dance", none⟩).2.2.2.2.1
      (by decide) (by decide) (by decide) (by decide)⟩

/-- C4: with the gateway running, a failure carrying a transport error with
status 404 delivers exactly one system notification whose value is the
external resolver result for the model-unavailable key in the errors
namespace. -/
theorem failure_404_delivers {σ : Type} (tr : String → String → String)
    (svc : MessageService σ) (h : svc.isRunning = true) :
    (MessageService.sendErrorMessage tr svc (RawFailure.axiosError (some 404))).2
      = [⟨MessageType.system, tr "ERROR_OPENAI_API_KEY_NO_GPT4" "errors"⟩] := by
  simp [MessageService.sendErrorMessage, MessageService.sendMessage, h, classifyError]

/-- C4 witness: a concrete running gateway with an identity-like resolver. -/
theorem failure_404_delivers_witness :
    (MessageService.sendErrorMessage (fun k _ => k)
        (⟨true, ()⟩ : MessageService Unit) (RawFailure.axiosError (some 404))).2
      = [⟨MessageType.system, "ERROR_OPENAI_API_KEY_NO_GPT4"⟩] :=
  failure_404_delivers (fun k _ => k) (⟨true, ()⟩ : MessageService Unit) rfl

/-- C5: a freshly constructed gateway is not running, so the thinking
notification — and more generally any sequence of events containing no
setRunning(true) — delivers nothing to the sink. -/
theorem fresh_gateway_silent {σ : Type} (sink : σ) (es : List Event)
    (h : ∀ e ∈ es, e ≠ Event.setRunning true) :
    (MessageService.create sink).isRunning = false ∧
    (MessageService.sendThinkingMessage (MessageService.create sink)).2 = [] ∧
    (runEvents (MessageService.create sink) es).2 = [] := by
  refine ⟨rfl, rfl, ?_⟩
  rw [gating_trace]
  have key : ∀ (fs : List Event), (∀ e ∈ fs, e ≠ Event.setRunning true) →
      specDelivered false fs = [] := by
    intro fs
    induction fs with
    | nil => intro _; rfl
    | cons f fs ih =>
      intro hf
      cases f with
      | setRunning b =>
        cases b with
        | false => exact ih (fun e he => hf e (List.mem_cons_of_mem _ he))
        | true => exact absurd rfl (hf _ (List.mem_cons_self _ _))
      | publish m =>
        simpa [specDelivered] using ih (fun e he => hf e (List.mem_cons_of_mem _ he))
  exact key es h

/-- C5 witness: scenario B — a fresh gateway receiving a thinking-started
publish delivers nothing. -/
theorem fresh_gateway_silent_witness :
    (∀ e ∈ [Event.publish ⟨MessageType.thinking, ""⟩], e ≠ Event.setRunning true) ∧
    (runEvents (MessageService.create ()) [Event.publish ⟨MessageType.thinking, ""⟩]).2 = [] :=
  ⟨by decide,
    (fresh_gateway_silent () [Event.publish ⟨MessageType.thinking, ""⟩] (by decide)).2.2⟩

/-- C6: the synthesis and classification operations are total: every
Analysis yields some sentence (the default one when the action is
unrecognized or missing), and every RawFailure of any shape yields some
classification key (the default one when it is neither a transport error
nor a string). -/
theorem gateway_malformed_total (analysis : Analysis) (e : RawFailure)
    (ha1 : analysis.action ≠ some "search") (ha2 : analysis.action ≠ some "wikipedia")
    (ha3 : analysis.action ≠ some "image") (ha4 : analysis.action ≠ some "code")
    (he1 : ∀ st, e ≠ RawFailure.axiosError st) (he2 : ∀ s, e ≠ RawFailure.str s) :
    (∀ b : Analysis, ∃ t : String, analysisText b = t) ∧
    (∀ f : RawFailure, ∃ k : String, classifyError f = k) ∧
    analysisText analysis = "⏰ Generating response..." ∧
    classifyError e = "ERROR_RETRIEVE_INITIAL_TASKS" := by
  refine ⟨fun b => ⟨analysisText b, rfl⟩, fun f => ⟨classifyError f, rfl⟩, ?_, ?_⟩
  · simp [analysisText, ha1, ha2, ha3, ha4]
  · cases e with
    | axiosError st => exact absurd rfl (he1 st)
    | str s => exact absurd rfl (he2 s)
    | other => rfl

/-- C6 witness: a malformed action tag and an unrecognized failure shape. -/
theorem gateway_malformed_total_witness :
    analysisText ⟨some "dance2", some "x"⟩ = "⏰ Generating response..." ∧
    classifyError RawFailure.other = "ERROR_RETRIEVE_INITIAL_TASKS" := by
  have h := gateway_malformed_total ⟨some "dance2", some "x"⟩ RawFailure.other
    (by decide) (by decide) (by decide) (by decide)
    (fun st h => RawFailure.noConfusion h) (fun s h => RawFailure.noConfusion h)
  exact ⟨h.2.2.1, h.2.2.2⟩

/-- C7: classification is a deterministic pure function of the failure
value alone: equal inputs yield equal keys, and the value delivered through
`sendErrorMessage` is the resolver result for that key regardless of which
gateway state performs the call. -/
theorem classify_deterministic {σ₁ σ₂ : Type} (svc₁ : MessageService σ₁)
    (svc₂ : MessageService σ₂) (tr : String → String → String)
    (e₁ e₂ : RawFailure) (h : e₁ = e₂) :
    classifyError e₁ = classifyError e₂ ∧
    (∀ m ∈ (MessageService.sendErrorMessage tr svc₁ e₁).2,
      m.value = tr (classifyError e₁) "errors") ∧
    (∀ m ∈ (MessageService.sendErrorMessage tr svc₂ e₂).2,
      m.value = tr (classifyError e₁) "errors") := by
  subst h
  refine ⟨rfl, ?_, ?_⟩ <;>
    · intro m hm
      simp only [MessageService.sendErrorMessage, MessageService.sendMessage] at hm
      split at hm
      · simp only [List.mem_singleton] at hm
        subst hm
        rfl
      · cases hm

/-- C7 witness: two distinct gateway states classifying the same concrete
failure. -/
theorem classify_deterministic_witness :
    classifyError (RawFailure.str "x") = classifyError (RawFailure.str "x") ∧
    (∀ m ∈ (MessageService.sendErrorMessage (fun k _ => k)
        (⟨true, ()⟩ : MessageService Unit) (RawFailure.str "x")).2,
      m.value = classifyError (RawFailure.str "x")) :=
  ⟨(classify_deterministic (⟨true, ()⟩ : MessageService Unit)
      (⟨false, ()⟩ : MessageService Unit) (fun k _ => k)
      (RawFailure.str "x") (RawFailure.str "x") rfl).1,
    (classify_deterministic (⟨true, ()⟩ : MessageService Unit)
      (⟨false, ()⟩ : MessageService Unit) (fun k _ => k)
      (RawFailure.str "x") (RawFailure.str "x") rfl).2.1⟩

/-- C8: with the gateway running, `sendGoalMessage(text)` delivers exactly
one Goal notification carrying the given text verbatim. -/
theorem goal_accepted_verbatim {σ : Type} (svc : MessageService σ) (t : String)
    (h : svc.isRunning = true) :
    (svc.sendGoalMessage t).2 = [⟨MessageType.goal, t⟩] := by
  simp [MessageService.sendGoalMessage, MessageService.sendMessage, h]

/-- C8 witness: scenario A — a running gateway accepting the goal
`Plan a trip`. -/
theorem goal_accepted_verbatim_witness :
    ((⟨true, ()⟩ : MessageService Unit).sendGoalMessage "Plan a trip").2
      = [⟨MessageType.goal, "Plan a trip"⟩] :=
  goal_accepted_verbatim (⟨true, ()⟩ : MessageService Unit) "Plan a trip" rfl

/-- C9: a transport-layer error carrying no status at all is classified as
the generic access key, not the default initial-retrieval key: recognition
as a transport error routes it into the status dispatch, whose else arm
fires because the absent status is not 404. -/
theorem classify_missing_status :
    classifyError (RawFailure.axiosError none) = "ERROR_ACCESSING_OPENAI_API_KEY" ∧
    classifyError (RawFailure.axiosError none) ≠ "ERROR_RETRIEVE_INITIAL_TASKS" := by
  exact ⟨rfl, by decide⟩

/-- C10: frame: `sendMessage` mutates no gateway state and invokes the sink
at most once, and `setIsRunning` changes only the flag, leaving the stored
sink reference intact. -/
theorem publish_frame {σ : Type} (svc : MessageService σ) (m : Message) (b : Bool) :
    (svc.sendMessage m).1 = svc ∧
    (svc.sendMessage m).2.length ≤ 1 ∧
    (svc.setIsRunning b).isRunning = b ∧
    (svc.setIsRunning b).renderMessage = svc.renderMessage := by
  refine ⟨rfl, ?_, rfl, rfl⟩
  simp only [MessageService.sendMessage]
  split <;> simp

end GptAgent
